import Mathlib

/-!
# Verification of the embedded-object protocol layer

A shallow embedding of the PowerBI-JavaScript embedded-object protocol layer:
the `Report` / `Tile` load path (src/report.ts, src/tile.ts) and the `Page`
remote operations (src/page.ts).  The generic postMessage transport is an
external collaborator and is modelled as an injected channel function; the
`Embed` base class, the restricted-legacy-format predicate and the fixed
error values live in repository files that are not part of the sources here
and are modelled from the specification where noted.
-/

deriving instance DecidableEq for Except

/-- A primitive JavaScript runtime value, as far as this layer inspects one:
strings, numbers, booleans, `null` and `undefined`.  Fields whose TypeScript
type is optional or `any` are embedded with this type. -/
inductive JsVal where
  | str (s : String)
  | num (n : Int)
  | bool (b : Bool)
  | null
  | undef
deriving DecidableEq, Repr

/-- The JavaScript `typeof` operator restricted to primitive values
(`typeof null` is `"object"`). -/
def JsVal.typeof : JsVal → String
  | .str _ => "string"
  | .num _ => "number"
  | .bool _ => "boolean"
  | .null => "object"
  | .undef => "undefined"

/-- JavaScript truthiness of a primitive value: `""`, `0`, `false`, `null`
and `undefined` are falsy, everything else is truthy. -/
def JsVal.truthy : JsVal → Bool
  | .str s => s ≠ ""
  | .num n => n ≠ 0
  | .bool b => b
  | .null => false
  | .undef => false

/-- The subset of `IEmbedOptions` (src/embed.ts interface, consumed by
src/report.ts and src/tile.ts) that the load path and URL construction
inspect: `id`, `embedUrl`, `accessToken` and `filterPaneEnabled`.  Optional
fields are `JsVal` (possibly `undef`). -/
structure IEmbedOptions where
  id : JsVal
  embedUrl : String
  accessToken : JsVal
  filterPaneEnabled : JsVal
deriving DecidableEq, Repr

/-- `IReportLoadMessage` of src/report.ts: `ILoadMessage` (action and access
token) extended with `reportId`.  `reportId` is assigned `options.id`, which
at runtime may be any primitive, so it is embedded as `JsVal`. -/
structure IReportLoadMessage where
  action : String
  reportId : JsVal
  accessToken : JsVal
deriving DecidableEq, Repr

/-- `ITileLoadMessage` of src/tile.ts: `ILoadMessage` extended with
`tileId`. -/
structure ITileLoadMessage where
  action : String
  tileId : JsVal
  accessToken : JsVal
deriving DecidableEq, Repr

/-- Modelled from the spec: `Embed.load` (src/embed.ts is not among the
sources).  "if `requireId` is true and `options.id` is not a string, fails
immediately with an invalid-argument error and sends no message ...
Otherwise builds the entity-specific load directive ... and dispatches it
through the collaborator channel ... exactly one outbound load message per
call".  An `Except.error` is a thrown error with nothing dispatched; an
`Except.ok` carries the list of dispatched load messages. -/
def Embed.load {α : Type} (options : IEmbedOptions) (requireId : Bool)
    (message : α) : Except String (List α) :=
  if requireId ∧ options.id.typeof ≠ "string" then
    Except.error "id must be specified when loading on existing elements."
  else
    Except.ok [message]

/-- Modelled from the spec: `Embed.getEmbedUrl` (src/embed.ts is not among
the sources) "returns the configured embed URL unmodified". -/
def Embed.getEmbedUrl (options : IEmbedOptions) : String :=
  options.embedUrl

/-- `Report.load` of src/report.ts: throws when `requireId` is set and
`options.id` is not a string, otherwise builds the `loadReport` directive
and delegates to the base load. -/
def Report.load (options : IEmbedOptions) (requireId : Bool) :
    Except String (List IReportLoadMessage) :=
  if requireId ∧ options.id.typeof ≠ "string" then
    Except.error "id must be specified when loading reports on existing elements."
  else
    let message : IReportLoadMessage :=
      { action := "loadReport", reportId := options.id, accessToken := JsVal.null }
    Embed.load options requireId message

/-- `Tile.load` of src/tile.ts: same precondition as `Report.load`, builds
the `loadTile` directive. -/
def Tile.load (options : IEmbedOptions) (requireId : Bool) :
    Except String (List ITileLoadMessage) :=
  if requireId ∧ options.id.typeof ≠ "string" then
    Except.error "id must be specified when loading reports on existing elements."
  else
    let message : ITileLoadMessage :=
      { action := "loadTile", tileId := options.id, accessToken := JsVal.null }
    Embed.load options requireId message

/-- `Report.getEmbedUrl` of src/report.ts: appends
`&filterPaneEnabled=false` to the base URL when `filterPaneEnabled` is
falsy in the held options. -/
def Report.getEmbedUrl (options : IEmbedOptions) : String :=
  let embedUrl := Embed.getEmbedUrl options
  if ¬ options.filterPaneEnabled.truthy then
    embedUrl ++ "&filterPaneEnabled=false"
  else
    embedUrl

/-- `Tile.getEmbedUrl` of src/tile.ts: pass-through of the base URL. -/
def Tile.getEmbedUrl (options : IEmbedOptions) : String :=
  Embed.getEmbedUrl options

/-- An error value carried as the body of a channel rejection or thrown by
this layer.  `apiNotSupportedForRDL` is the one distinguished fixed error
value this layer itself produces; `js` is an arbitrary remote error
payload. -/
inductive ErrVal where
  | apiNotSupportedForRDL
  | js (v : JsVal)
deriving DecidableEq, Repr

/-- Modelled from the spec: `errors.APINotSupportedForRDLError` (src/errors.ts
is not among the sources) is "a fixed, named error value returned/rejected
when an operation is invoked against a restricted legacy embed format". -/
def APINotSupportedForRDLError : ErrVal :=
  ErrVal.apiNotSupportedForRDL

/-- The `IHttpPostMessageResponse` envelope of the http-post-message
collaborator (subset: status line and `body`).  Both resolutions and
rejections of the channel carry such an envelope. -/
structure IHttpPostMessageResponse (α : Type) where
  statusCode : Nat
  statusText : String
  body : α
deriving DecidableEq, Repr

/-- A rejection envelope: its `body` is the remote error payload. -/
abbrev HPMError := IHttpPostMessageResponse ErrVal

/-- The HTTP-like method of a channel request. -/
inductive Method where
  | get
  | post
  | put
  | delete
deriving DecidableEq, Repr

/-- `models.IFilter` is an external collaborator type that this layer never
inspects: filters are opaque payload values. -/
abbrev IFilter := JsVal

/-- The subset of `models.IPage` sent as a request payload by
`Page.setActive` and `Page.setDisplayName`: `name`, `displayName`
(a string or `null`) and the optional `isActive` field (`none` when the
field is absent from the object literal). -/
structure IPage where
  name : String
  displayName : JsVal
  isActive : Option Bool
deriving DecidableEq, Repr

/-- The payload of an outbound channel request from src/page.ts: a filter
array, an `IPage` record, or the empty object literal sent by
`Page.delete`. -/
inductive Payload where
  | filters (fs : List IFilter)
  | page (pg : IPage)
  | emptyObj
deriving DecidableEq, Repr

/-- One outbound request over the report's channel: method, route, optional
payload, the scoping headers (`uid`) and the target iframe window (an
abstract window identity). -/
structure Request where
  method : Method
  url : String
  payload : Option Payload
  uid : String
  targetWindow : Nat
deriving DecidableEq, Repr

/-- The subset of the owning report's configuration that src/page.ts
reads: `uniqueId` (session-unique scoping id) and `embedUrl`. -/
structure IReportConfig where
  uniqueId : String
  embedUrl : String
deriving DecidableEq, Repr

/-- The report's iframe, reduced to the identity of its content window. -/
structure Iframe where
  contentWindow : Nat
deriving DecidableEq, Repr

/-- `IReportNode` of src/report.ts as consumed by src/page.ts: the owning
report's configuration and iframe.  The `service.hpm` channel is an
external collaborator and is passed to each operation explicitly. -/
structure IReportNode where
  config : IReportConfig
  iframe : Iframe
deriving DecidableEq, Repr

/-- The `Page` class of src/page.ts: owning report reference, server-assigned
`name`, and the display attributes set at construction.  Optional
constructor arguments are embedded as `JsVal` (possibly `undef`). -/
structure Page where
  report : IReportNode
  name : String
  displayName : JsVal
  isActive : JsVal
  visibility : JsVal
  defaultSize : JsVal
  defaultDisplayOption : JsVal
deriving DecidableEq, Repr

/-- `models.IVisual` of the external powerbi-models collaborator, as read
from the `getVisuals` response body. -/
structure IVisual where
  name : String
  title : String
  type : String
  layout : JsVal
deriving DecidableEq, Repr

/-- Modelled from the spec: the `VisualDescriptor` entity
(src/visualDescriptor.ts is not among the sources) is "a leaf record
produced by the Page's visual-listing operation" carrying the owning-page
reference, `name`, `title`, `type`, `layout`; src/page.ts constructs it as
`new VisualDescriptor(this, visual.name, visual.title, visual.type,
visual.layout)`. -/
structure VisualDescriptor where
  page : Page
  name : String
  title : String
  type : String
  layout : JsVal
deriving DecidableEq, Repr

/-- The observable outcome of one `Page` operation: the requests issued over
the channel, the result (`Except.error` is a promise rejection), and the
page object after the call (src/page.ts methods contain no assignment to
`this`, so the post state is the receiver unchanged). -/
structure OpOutcome (α : Type) where
  requests : List Request
  result : Except ErrVal α
  post : Page
deriving DecidableEq, Repr

/-- Modelled from the spec: the route segment `models.LayoutType[layoutType]`
of `Page.hasLayout` — the powerbi-models `LayoutType` numeric enum (an
external collaborator) looked up at an arbitrary runtime value and rendered
into the route string; a failed lookup renders as `undefined`. -/
def LayoutType_routeSegment : JsVal → String
  | JsVal.num 0 => "Master"
  | JsVal.num 1 => "Custom"
  | JsVal.num 2 => "MobileLandscape"
  | JsVal.num 3 => "MobilePortrait"
  | JsVal.str "Master" => "0"
  | JsVal.str "Custom" => "1"
  | JsVal.str "MobileLandscape" => "2"
  | JsVal.str "MobilePortrait" => "3"
  | _ => "undefined"

/-- `Page.getFilters`: one GET to `/report/pages/{name}/filters`; resolves
with the response body, rejects with the rejection envelope's body. -/
def Page.getFilters (p : Page)
    (chan : Request → Except HPMError (IHttpPostMessageResponse (List IFilter))) :
    OpOutcome (List IFilter) :=
  let req : Request :=
    ⟨Method.get, "/report/pages/" ++ p.name ++ "/filters", none,
      p.report.config.uniqueId, p.report.iframe.contentWindow⟩
  ⟨[req],
    match chan req with
    | Except.ok response => Except.ok response.body
    | Except.error response => Except.error response.body, p⟩

/-- `Page.delete`: one DELETE to `/report/pages/{name}` with the empty
object literal as payload; resolves with the response body. -/
def Page.delete (p : Page)
    (chan : Request → Except HPMError (IHttpPostMessageResponse Unit)) :
    OpOutcome Unit :=
  let req : Request :=
    ⟨Method.delete, "/report/pages/" ++ p.name, some Payload.emptyObj,
      p.report.config.uniqueId, p.report.iframe.contentWindow⟩
  ⟨[req],
    match chan req with
    | Except.ok response => Except.ok response.body
    | Except.error response => Except.error response.body, p⟩

/-- `Page.setFilters`: one PUT to `/report/pages/{name}/filters` with the
given filter array; resolves with the raw response envelope. -/
def Page.setFilters (p : Page) (filters : List IFilter)
    (chan : Request → Except HPMError (IHttpPostMessageResponse Unit)) :
    OpOutcome (IHttpPostMessageResponse Unit) :=
  let req : Request :=
    ⟨Method.put, "/report/pages/" ++ p.name ++ "/filters",
      some (Payload.filters filters),
      p.report.config.uniqueId, p.report.iframe.contentWindow⟩
  ⟨[req],
    match chan req with
    | Except.ok response => Except.ok response
    | Except.error response => Except.error response.body, p⟩

/-- `Page.removeFilters`: delegates to `setFilters` with the empty array. -/
def Page.removeFilters (p : Page)
    (chan : Request → Except HPMError (IHttpPostMessageResponse Unit)) :
    OpOutcome (IHttpPostMessageResponse Unit) :=
  p.setFilters [] chan

/-- `Page.setActive`: one PUT to `/report/pages/active` with payload
`{name: this.name, displayName: null, isActive: true}`; resolves with the
raw response envelope. -/
def Page.setActive (p : Page)
    (chan : Request → Except HPMError (IHttpPostMessageResponse Unit)) :
    OpOutcome (IHttpPostMessageResponse Unit) :=
  let page : IPage := ⟨p.name, JsVal.null, some true⟩
  let req : Request :=
    ⟨Method.put, "/report/pages/active", some (Payload.page page),
      p.report.config.uniqueId, p.report.iframe.contentWindow⟩
  ⟨[req],
    match chan req with
    | Except.ok response => Except.ok response
    | Except.error response => Except.error response.body, p⟩

/-- `Page.setDisplayName`: one PUT to `/report/pages/{name}/name` with
payload `{name: this.name, displayName}` (no `isActive` field); resolves
with the raw response envelope. -/
def Page.setDisplayName (p : Page) (displayName : String)
    (chan : Request → Except HPMError (IHttpPostMessageResponse Unit)) :
    OpOutcome (IHttpPostMessageResponse Unit) :=
  let page : IPage := ⟨p.name, JsVal.str displayName, none⟩
  let req : Request :=
    ⟨Method.put, "/report/pages/" ++ p.name ++ "/name",
      some (Payload.page page),
      p.report.config.uniqueId, p.report.iframe.contentWindow⟩
  ⟨[req],
    match chan req with
    | Except.ok response => Except.ok response
    | Except.error response => Except.error response.body, p⟩

/-- `Page.getVisuals`: gated by the restricted-legacy-format predicate
(`utils.isRDLEmbed`, injected as a parameter following the spec, since
src/util.ts is not among the sources); otherwise one GET to
`/report/pages/{name}/visuals`, resolving with the body's visuals each
mapped into a `VisualDescriptor` bound to this page. -/
def Page.getVisuals (p : Page) (isRDLEmbed : String → Bool)
    (chan : Request → Except HPMError (IHttpPostMessageResponse (List IVisual))) :
    OpOutcome (List VisualDescriptor) :=
  if isRDLEmbed p.report.config.embedUrl then
    ⟨[], Except.error APINotSupportedForRDLError, p⟩
  else
    let req : Request :=
      ⟨Method.get, "/report/pages/" ++ p.name ++ "/visuals", none,
        p.report.config.uniqueId, p.report.iframe.contentWindow⟩
    ⟨[req],
      match chan req with
      | Except.ok response =>
          Except.ok (response.body.map (fun visual =>
            ⟨p, visual.name, visual.title, visual.type, visual.layout⟩))
      | Except.error response => Except.error response.body, p⟩

/-- `Page.hasLayout`: gated by the restricted-legacy-format predicate
(injected, as for `getVisuals`); otherwise one GET to
`/report/pages/{name}/layoutTypes/{enum lookup}`, resolving with the
response body. -/
def Page.hasLayout (p : Page) (isRDLEmbed : String → Bool) (layoutType : JsVal)
    (chan : Request → Except HPMError (IHttpPostMessageResponse Bool)) :
    OpOutcome Bool :=
  if isRDLEmbed p.report.config.embedUrl then
    ⟨[], Except.error APINotSupportedForRDLError, p⟩
  else
    let layoutTypeEnum := LayoutType_routeSegment layoutType
    let req : Request :=
      ⟨Method.get, "/report/pages/" ++ p.name ++ "/layoutTypes/" ++ layoutTypeEnum,
        none, p.report.config.uniqueId, p.report.iframe.contentWindow⟩
    ⟨[req],
      match chan req with
      | Except.ok response => Except.ok response.body
      | Except.error response => Except.error response.body, p⟩

example : Report.load ⟨JsVal.str "abc", "u?x=1", JsVal.undef, JsVal.undef⟩ true =
    Except.ok [⟨"loadReport", JsVal.str "abc", JsVal.null⟩] := by decide

example : Report.load ⟨JsVal.undef, "u?x=1", JsVal.undef, JsVal.undef⟩ true =
    Except.error "id must be specified when loading reports on existing elements." := by
  decide

/-! ## Sample values used by witnesses -/

/-- A sample options record with a string id. -/
def sampleOptionsStr : IEmbedOptions :=
  ⟨JsVal.str "abc", "https://h/reportEmbed?rid=1", JsVal.undef, JsVal.undef⟩

/-- A sample options record whose id is a number (not a string). -/
def sampleOptionsNum : IEmbedOptions :=
  ⟨JsVal.num 5, "https://h/reportEmbed?rid=1", JsVal.undef, JsVal.undef⟩

/-- A sample page of a sample report. -/
def samplePage : Page :=
  ⟨⟨⟨"uid1", "https://h/reportEmbed?rid=1"⟩, ⟨7⟩⟩, "ReportSection1",
    JsVal.str "Sales", JsVal.bool false, JsVal.num 0, JsVal.undef, JsVal.undef⟩

/-- A sample channel rejection envelope. -/
def sampleErr : HPMError :=
  ⟨404, "Not Found", ErrVal.js (JsVal.str "no such page")⟩

/-! ## Claims -/

/-- C1: for every options value with `requireId = true`, if `options.id` is
not a string then `Report.load` and `Tile.load` throw the invalid-argument
error before building or dispatching any load directive (the `Except.error`
outcome carries no dispatched-message list, and the base load is never
reached); if `options.id` is a string, no such error is thrown. -/
theorem load_requireId_guard (options : IEmbedOptions) :
    (options.id.typeof ≠ "string" →
      Report.load options true =
        Except.error "id must be specified when loading reports on existing elements." ∧
      Tile.load options true =
        Except.error "id must be specified when loading reports on existing elements.") ∧
    (options.id.typeof = "string" →
      (∃ messages, Report.load options true = Except.ok messages) ∧
      (∃ messages, Tile.load options true = Except.ok messages)) := by
  constructor
  · intro h
    constructor <;> simp [Report.load, Tile.load, h]
  · intro h
    refine ⟨⟨[⟨"loadReport", options.id, JsVal.null⟩], ?_⟩,
      ⟨[⟨"loadTile", options.id, JsVal.null⟩], ?_⟩⟩ <;>
      simp [Report.load, Tile.load, Embed.load, h]

/-- Witness for C1 at concrete inputs: a numeric id is rejected, a string
id is not. -/
theorem load_requireId_guard_witness :
    (Report.load sampleOptionsNum true =
      Except.error "id must be specified when loading reports on existing elements.") ∧
    (∃ messages, Tile.load sampleOptionsStr true = Except.ok messages) :=
  ⟨((load_requireId_guard sampleOptionsNum).1 (by decide)).1,
    ((load_requireId_guard sampleOptionsStr).2 (by decide)).2⟩

/-- C5: for every options value with a string id and either `requireId`,
`Report.load` dispatches exactly the `loadReport` directive with
`reportId = options.id` and `accessToken = null`, and `Tile.load` exactly
the `loadTile` directive with `tileId = options.id`; action and identifier
field name are fixed by the respective message structure. -/
theorem load_dispatches_fixed_directive (options : IEmbedOptions)
    (requireId : Bool) (h : options.id.typeof = "string") :
    Report.load options requireId =
      Except.ok [⟨"loadReport", options.id, JsVal.null⟩] ∧
    Tile.load options requireId =
      Except.ok [⟨"loadTile", options.id, JsVal.null⟩] := by
  constructor <;> simp [Report.load, Tile.load, Embed.load, h]

/-- Witness for C5 at a concrete string id. -/
theorem load_dispatches_fixed_directive_witness :
    Report.load sampleOptionsStr true =
      Except.ok [⟨"loadReport", JsVal.str "abc", JsVal.null⟩] ∧
    Tile.load sampleOptionsStr true =
      Except.ok [⟨"loadTile", JsVal.str "abc", JsVal.null⟩] :=
  load_dispatches_fixed_directive sampleOptionsStr true (by decide)

/-- C4: for every Report whose held options have a falsy
`filterPaneEnabled` (in particular `false` or `undefined`),
`Report.getEmbedUrl` returns the base embed URL with
`&filterPaneEnabled=false` appended; with a truthy `filterPaneEnabled` it
returns the base embed URL unchanged. -/
theorem report_getEmbedUrl_filterPane (options : IEmbedOptions) :
    (options.filterPaneEnabled.truthy = false →
      Report.getEmbedUrl options =
        Embed.getEmbedUrl options ++ "&filterPaneEnabled=false") ∧
    (options.filterPaneEnabled.truthy = true →
      Report.getEmbedUrl options = Embed.getEmbedUrl options) := by
  constructor <;> intro h <;> simp [Report.getEmbedUrl, h]

/-- Witness for C4 at concrete options: `undefined` appends the parameter,
`true` leaves the URL unchanged. -/
theorem report_getEmbedUrl_filterPane_witness :
    Report.getEmbedUrl ⟨JsVal.undef, "u?x=1", JsVal.undef, JsVal.undef⟩ =
      "u?x=1" ++ "&filterPaneEnabled=false" ∧
    Report.getEmbedUrl ⟨JsVal.undef, "u?x=1", JsVal.undef, JsVal.bool true⟩ =
      "u?x=1" :=
  ⟨(report_getEmbedUrl_filterPane _).1 (by decide),
    (report_getEmbedUrl_filterPane _).2 (by decide)⟩

/-- C2: for every Page remote operation and every channel rejection with
envelope `env`, the operation rejects with exactly `env.body` — not the
envelope and not a wrapped error.  For `getVisuals` and `hasLayout` the
owning report's embed URL must not match the restricted-legacy-format
predicate, since otherwise no channel request is made at all. -/
theorem page_ops_reject_with_rejection_body (p : Page) (env : HPMError)
    (filters : List IFilter) (d : String) (layoutType : JsVal)
    (isRDLEmbed : String → Bool)
    (h : isRDLEmbed p.report.config.embedUrl = false) :
    (p.getFilters (fun _ => Except.error env)).result = Except.error env.body ∧
    (p.setFilters filters (fun _ => Except.error env)).result = Except.error env.body ∧
    (p.removeFilters (fun _ => Except.error env)).result = Except.error env.body ∧
    (p.delete (fun _ => Except.error env)).result = Except.error env.body ∧
    (p.setActive (fun _ => Except.error env)).result = Except.error env.body ∧
    (p.setDisplayName d (fun _ => Except.error env)).result = Except.error env.body ∧
    (p.getVisuals isRDLEmbed (fun _ => Except.error env)).result = Except.error env.body ∧
    (p.hasLayout isRDLEmbed layoutType (fun _ => Except.error env)).result =
      Except.error env.body := by
  refine ⟨rfl, rfl, rfl, rfl, rfl, rfl, ?_, ?_⟩ <;>
    simp [Page.getVisuals, Page.hasLayout, h]

/-- Witness for C2 at a concrete page, rejection envelope and non-RDL
predicate. -/
theorem page_ops_reject_with_rejection_body_witness :
    (samplePage.getFilters (fun _ => Except.error sampleErr)).result =
      Except.error (ErrVal.js (JsVal.str "no such page")) ∧
    (samplePage.hasLayout (fun _ => false) (JsVal.num 0)
        (fun _ => Except.error sampleErr)).result =
      Except.error (ErrVal.js (JsVal.str "no such page")) :=
  ⟨(page_ops_reject_with_rejection_body samplePage sampleErr [] "n" (JsVal.num 0)
      (fun _ => false) rfl).1,
    (page_ops_reject_with_rejection_body samplePage sampleErr [] "n" (JsVal.num 0)
      (fun _ => false) rfl).2.2.2.2.2.2.2⟩

/-- C3: when the owning report's embed URL satisfies the
restricted-legacy-format predicate, `Page.getVisuals` and `Page.hasLayout`
reject with the fixed `APINotSupportedForRDLError` and issue zero channel
requests; when it does not, each issues its one GET request normally. -/
theorem rdl_gate_getVisuals_hasLayout (p : Page) (isRDLEmbed : String → Bool)
    (layoutType : JsVal)
    (chanV : Request → Except HPMError (IHttpPostMessageResponse (List IVisual)))
    (chanL : Request → Except HPMError (IHttpPostMessageResponse Bool)) :
    (isRDLEmbed p.report.config.embedUrl = true →
      p.getVisuals isRDLEmbed chanV =
        ⟨[], Except.error APINotSupportedForRDLError, p⟩ ∧
      p.hasLayout isRDLEmbed layoutType chanL =
        ⟨[], Except.error APINotSupportedForRDLError, p⟩) ∧
    (isRDLEmbed p.report.config.embedUrl = false →
      (p.getVisuals isRDLEmbed chanV).requests =
        [⟨Method.get, "/report/pages/" ++ p.name ++ "/visuals", none,
          p.report.config.uniqueId, p.report.iframe.contentWindow⟩] ∧
      (p.hasLayout isRDLEmbed layoutType chanL).requests =
        [⟨Method.get, "/report/pages/" ++ p.name ++ "/layoutTypes/" ++
            LayoutType_routeSegment layoutType, none,
          p.report.config.uniqueId, p.report.iframe.contentWindow⟩]) := by
  constructor <;> intro h <;>
    constructor <;> simp [Page.getVisuals, Page.hasLayout, h]

/-- Witness for C3: a concrete page under an always-true predicate is
gated, and under an always-false predicate issues its request. -/
theorem rdl_gate_getVisuals_hasLayout_witness :
    (samplePage.getVisuals (fun _ => true) (fun _ => Except.error sampleErr) =
      ⟨[], Except.error APINotSupportedForRDLError, samplePage⟩) ∧
    (samplePage.getVisuals (fun _ => false) (fun _ => Except.error sampleErr)).requests =
      [⟨Method.get, "/report/pages/ReportSection1/visuals", none, "uid1", 7⟩] :=
  ⟨((rdl_gate_getVisuals_hasLayout samplePage (fun _ => true) (JsVal.num 0)
      (fun _ => Except.error sampleErr) (fun _ => Except.error sampleErr)).1 rfl).1,
    ((rdl_gate_getVisuals_hasLayout samplePage (fun _ => false) (JsVal.num 0)
      (fun _ => Except.error sampleErr) (fun _ => Except.error sampleErr)).2 rfl).1⟩

/-- C6: `Page.removeFilters` is observably equivalent to
`Page.setFilters []` against the same channel — equal outcomes (requests,
result and post state) — and the one request both issue is a PUT to
`/report/pages/{name}/filters` with the empty filter array as payload. -/
theorem removeFilters_is_setFilters_empty (p : Page)
    (chan : Request → Except HPMError (IHttpPostMessageResponse Unit)) :
    p.removeFilters chan = p.setFilters [] chan ∧
    (p.removeFilters chan).requests =
      [⟨Method.put, "/report/pages/" ++ p.name ++ "/filters",
        some (Payload.filters []),
        p.report.config.uniqueId, p.report.iframe.contentWindow⟩] :=
  ⟨rfl, rfl⟩

/-- C7: `Page.setActive` always sends exactly the payload
`{name: page.name, displayName: null, isActive: true}` in one PUT to
`/report/pages/active`, scoped by the report's unique id and iframe
window, regardless of the page's current `displayName` and `isActive`
fields (the page is universally quantified over all field values). -/
theorem setActive_fixed_payload (p : Page)
    (chan : Request → Except HPMError (IHttpPostMessageResponse Unit)) :
    (p.setActive chan).requests =
      [⟨Method.put, "/report/pages/active",
        some (Payload.page ⟨p.name, JsVal.null, some true⟩),
        p.report.config.uniqueId, p.report.iframe.contentWindow⟩] :=
  rfl

/-- C10: `Page.setDisplayName d` sends to `/report/pages/{name}/name` the
payload `{name: page.name, displayName: d}` (no `isActive` field): the
payload carries the server-assigned `name` together with the argument `d`,
for every value of the page's local `displayName` field (which is also left
unchanged, as the post state equals the receiver). -/
theorem setDisplayName_sends_name_and_argument (p : Page) (d : String)
    (chan : Request → Except HPMError (IHttpPostMessageResponse Unit)) :
    (p.setDisplayName d chan).requests =
      [⟨Method.put, "/report/pages/" ++ p.name ++ "/name",
        some (Payload.page ⟨p.name, JsVal.str d, none⟩),
        p.report.config.uniqueId, p.report.iframe.contentWindow⟩] ∧
    (p.setDisplayName d chan).post = p :=
  ⟨rfl, rfl⟩

/-- C9: no Page remote operation mutates any local field of the page or of
its owning report's configuration: for every channel behaviour (success or
failure) the post state of each of the eight operations equals the page
before the call. -/
theorem page_ops_no_local_mutation (p : Page)
    (filters : List IFilter) (d : String) (layoutType : JsVal)
    (isRDLEmbed : String → Bool)
    (chanF : Request → Except HPMError (IHttpPostMessageResponse (List IFilter)))
    (chanU : Request → Except HPMError (IHttpPostMessageResponse Unit))
    (chanV : Request → Except HPMError (IHttpPostMessageResponse (List IVisual)))
    (chanB : Request → Except HPMError (IHttpPostMessageResponse Bool)) :
    (p.getFilters chanF).post = p ∧
    (p.setFilters filters chanU).post = p ∧
    (p.removeFilters chanU).post = p ∧
    (p.delete chanU).post = p ∧
    (p.setActive chanU).post = p ∧
    (p.setDisplayName d chanU).post = p ∧
    (p.getVisuals isRDLEmbed chanV).post = p ∧
    (p.hasLayout isRDLEmbed layoutType chanB).post = p := by
  refine ⟨rfl, rfl, rfl, rfl, rfl, rfl, ?_, ?_⟩ <;>
    simp [Page.getVisuals, Page.hasLayout] <;>
    split <;> rfl

/-- A fixed successful `getVisuals` channel: the response body is one
visual. -/
def cexVisualChan : Request → Except HPMError (IHttpPostMessageResponse (List IVisual)) :=
  fun _ => Except.ok ⟨200, "OK", [⟨"v1", "t1", "bar", JsVal.null⟩]⟩

/-- A page differing from `samplePage` only in its `displayName` field. -/
def cexOtherPage : Page :=
  { samplePage with displayName := JsVal.str "Other" }

/-- C8 counterexample: `Page.getVisuals` does not resolve with the response
envelope's body.  At the concrete channel `cexVisualChan` it resolves with
the body's visuals wrapped into `VisualDescriptor` records carrying the
receiving page, and two pages given the identical response envelope resolve
to different values — impossible if each resolved with that envelope's
body. -/
theorem getVisuals_resolution_not_body :
    (samplePage.getVisuals (fun _ => false) cexVisualChan).result =
      Except.ok [⟨samplePage, "v1", "t1", "bar", JsVal.null⟩] ∧
    (cexOtherPage.getVisuals (fun _ => false) cexVisualChan).result ≠
      (samplePage.getVisuals (fun _ => false) cexVisualChan).result := by
  exact ⟨rfl, by decide⟩

/-- C8 as amended: on success, `getFilters`, `hasLayout` and `delete`
resolve with the response envelope's body; `getVisuals` resolves with the
envelope body's visuals each mapped into a `VisualDescriptor` bound to the
receiving page; the write operations (`setFilters`, `removeFilters`,
`setActive`, `setDisplayName`) resolve with the raw channel response
envelope itself. -/
theorem ops_success_resolution (p : Page)
    (filters : List IFilter) (d : String) (layoutType : JsVal)
    (isRDLEmbed : String → Bool)
    (respF : IHttpPostMessageResponse (List IFilter))
    (respU : IHttpPostMessageResponse Unit)
    (respB : IHttpPostMessageResponse Bool)
    (respV : IHttpPostMessageResponse (List IVisual))
    (h : isRDLEmbed p.report.config.embedUrl = false) :
    (p.getFilters (fun _ => Except.ok respF)).result = Except.ok respF.body ∧
    (p.hasLayout isRDLEmbed layoutType (fun _ => Except.ok respB)).result =
      Except.ok respB.body ∧
    (p.delete (fun _ => Except.ok respU)).result = Except.ok respU.body ∧
    (p.getVisuals isRDLEmbed (fun _ => Except.ok respV)).result =
      Except.ok (respV.body.map (fun visual =>
        ⟨p, visual.name, visual.title, visual.type, visual.layout⟩)) ∧
    (p.setFilters filters (fun _ => Except.ok respU)).result = Except.ok respU ∧
    (p.removeFilters (fun _ => Except.ok respU)).result = Except.ok respU ∧
    (p.setActive (fun _ => Except.ok respU)).result = Except.ok respU ∧
    (p.setDisplayName d (fun _ => Except.ok respU)).result = Except.ok respU := by
  refine ⟨rfl, ?_, rfl, ?_, rfl, rfl, rfl, rfl⟩ <;>
    simp [Page.getVisuals, Page.hasLayout, h]

/-- Witness for the amended C8 at a concrete page and concrete successful
envelopes. -/
theorem ops_success_resolution_witness :
    (samplePage.getFilters (fun _ =>
      Except.ok ⟨200, "OK", [JsVal.str "f1"]⟩)).result =
      Except.ok [JsVal.str "f1"] ∧
    (samplePage.setFilters [JsVal.str "f1"] (fun _ =>
      Except.ok ⟨202, "Accepted", ()⟩)).result =
      Except.ok ⟨202, "Accepted", ()⟩ :=
  ⟨(ops_success_resolution samplePage [JsVal.str "f1"] "n" (JsVal.num 0)
      (fun _ => false) ⟨200, "OK", [JsVal.str "f1"]⟩ ⟨202, "Accepted", ()⟩
      ⟨200, "OK", true⟩ ⟨200, "OK", []⟩ rfl).1,
    (ops_success_resolution samplePage [JsVal.str "f1"] "n" (JsVal.num 0)
      (fun _ => false) ⟨200, "OK", [JsVal.str "f1"]⟩ ⟨202, "Accepted", ()⟩
      ⟨200, "OK", true⟩ ⟨200, "OK", []⟩ rfl).2.2.2.2.1⟩
